import Mathlib

/-!
Verification of the PiP-Video arbitration engine (background script
`pipvideo.js` and the tab content script).

The development shallowly embeds the pure core of the engine:

* the candidate record produced by the per-frame prober and the global
  ranking comparator `sorting`;
* the rank-and-select step (`Array.sort(sorting).shift()`), modelled with a
  sort that is sorted and a permutation of its input — for a consistent
  comparator this pins the unique result of any conforming sort;
* the in-frame activation step with its own copy of the comparator and the
  `.catch`-based handling of a rejected native PiP request;
* the exit-guard installer (`self.pipobj`, `clearTimeout`/`setTimeout`,
  proxy wrap of `Document.prototype.exitPictureInPicture`) as an explicit
  state machine over discrete time;
* the `triggerPip` message handler of the content script.

Effectful steps are modelled as functions returning an explicit trace of
effects, parametrised over the environment (probe results, preference
value, in-frame element states, outcome of the native PiP request).
-/

/-- A video candidate as assembled by the background script: the per-frame
probe reports `{paused: e.paused, connected: e.isConnected}` and the merge
step stamps each record with the frame id it came from
(`v.frameId = o.frameId`). -/
structure Candidate where
  paused : Bool
  connected : Bool
  frameId : Int
deriving DecidableEq, Repr

/-- The global ranking comparator `sorting` of the background script,
branch for branch:

`a.paused === false && b.paused` → `-1`;
`b.paused === false && a.paused` → `1`;
`a.connected === false && b.connected` → `-1`;
`b.connected === false && a.connected` → `1`;
otherwise `a.frameId - b.frameId`. -/
def sorting (a b : Candidate) : Int :=
  if a.paused = false ∧ b.paused then -1
  else if b.paused = false ∧ a.paused then 1
  else if a.connected = false ∧ b.connected then -1
  else if b.connected = false ∧ a.connected then 1
  else a.frameId - b.frameId

/-- `a` sorts no later than `b` under the comparator `sorting`
(comparator result `≤ 0`). -/
def rankLE (a b : Candidate) : Prop := sorting a b ≤ 0

instance : DecidableRel rankLE := fun _ _ => inferInstanceAs (Decidable (_ ≤ _))

/-- Rank-and-select, `array.sort(sorting).shift()`: sort under the
comparator and take the first element if any.  `List.insertionSort`
stands in for the sort of the engine; `rank_and_select_deterministic` shows the
comparator is consistent enough that every sorted rearrangement has the
same head, so the choice of sort algorithm is immaterial. -/
def pickWinner (l : List Candidate) : Option Candidate :=
  (List.insertionSort rankLE l).head?

/-- One entry of the per-frame probe result: `{paused, connected}` for a
distinct video element of that frame. -/
structure ProbeItem where
  paused : Bool
  connected : Bool
deriving DecidableEq, Repr

/-- The injection result of one frame as delivered to the background
script: the frame id together with the list of per-element probe
records. -/
structure InjectionResult where
  frameId : Int
  result : List ProbeItem
deriving DecidableEq, Repr

/-- The merge step
`(r || []).map(o => o.result.map(v => { v.frameId = o.frameId; return v; })).flat()`:
stamp every probe record with its frame id and flatten. -/
def probedCandidates (r : List InjectionResult) : List Candidate :=
  (r.map (fun o => o.result.map
    (fun v => { paused := v.paused, connected := v.connected, frameId := o.frameId }))).flatten

/-- Observable state of a raw video element inside the winning frame: the
`paused` playback flag and the `isConnected` document-attachment flag.
Unlike the probe records of the background script, the in-frame activation
sorts these elements directly. -/
structure Elem where
  paused : Bool
  isConnected : Bool
deriving DecidableEq, Repr

/-- The element behind a candidate record (forgetting the frame id): the
probe built the record as `{paused: e.paused, connected: e.isConnected}`. -/
def Candidate.toElem (c : Candidate) : Elem := ⟨c.paused, c.connected⟩

/-- The JS values the in-frame comparator guards can meet: a boolean
property, or `undefined` from reading a property the element does not
have. -/
inductive JSVal where
  | bool : Bool → JSVal
  | undef : JSVal
deriving DecidableEq, Repr

/-- Strict equality against `false`: `v === false` holds only for the
boolean `false`; in particular `undefined === false` is `false`. -/
def jsStrictEqFalse (v : JSVal) : Prop := v = JSVal.bool false

instance : DecidablePred jsStrictEqFalse := fun v => inferInstanceAs (Decidable (v = _))

/-- Truthiness of a guard value: a boolean is truthy exactly when it is
`true`; `undefined` is falsy. -/
def jsTruthy (v : JSVal) : Prop := v = JSVal.bool true

instance : DecidablePred jsTruthy := fun v => inferInstanceAs (Decidable (v = _))

/-- Reading the `connected` property of a raw video element, as the
in-frame comparator does: a video element has no `connected` property (the
DOM attachment flag is named `isConnected`), so the read yields
`undefined` whatever the attachment state is. -/
def Elem.connectedProp (_ : Elem) : JSVal := JSVal.undef

/-- The in-frame copy of the comparator used by the activation step.  It
has the same four guarded branches as the global `sorting` but no final
`else`: when every guard fails the function returns `undefined`, modelled
as `none`.  Its connected guards read `a.connected` and `b.connected` on
raw elements — `Elem.connectedProp`, always `undefined` — so those two
guards can never fire. -/
def sortingInFrame (a b : Elem) : Option Int :=
  if a.paused = false ∧ b.paused then some (-1)
  else if b.paused = false ∧ a.paused then some 1
  else if jsStrictEqFalse a.connectedProp ∧ jsTruthy b.connectedProp then some (-1)
  else if jsStrictEqFalse b.connectedProp ∧ jsTruthy a.connectedProp then some 1
  else none

/-- The value `Array.prototype.sort` actually uses for the in-frame
comparator: a comparator returning `undefined` is coerced through
`ToNumber` to `NaN`, which the sort treats as `+0`. -/
def sortingInFrameValue (a b : Elem) : Int := (sortingInFrame a b).getD 0

/-- `a` sorts no later than `b` under the in-frame comparator. -/
def inFrameLE (a b : Elem) : Prop := sortingInFrameValue a b ≤ 0

instance : DecidableRel inFrameLE := fun _ _ => inferInstanceAs (Decidable (_ ≤ _))

/-- Observable effects of one activation run of the background script and
of the scripts it injects. -/
inductive Effect where
  | setIcon : Effect
  | installExitGuard : Int → Effect
  | requestPiP : Effect
  | alert : String → Effect
  | warn : String → Effect
  | setBadgeText : String → Effect
  | setTitle : String → Effect
deriving DecidableEq, Repr

/-- The in-frame activation function: re-collect the elements of the frame,
sort them with the in-frame comparator, shift the first, and on it issue
`video.requestPictureInPicture().catch(e => alert(e.message))`.  The
outcome of the native request is supplied by `req`; a rejection is caught
right at the call and turned into an `alert` carrying the message. -/
def inFrameActivate (es : List Elem) (req : Elem → Except String Unit) : List Effect :=
  match (List.insertionSort inFrameLE es).head? with
  | some e =>
    match req e with
    | Except.ok _ => [Effect.requestPiP]
    | Except.error m => [Effect.requestPiP, Effect.alert m]
  | none => []

/-- `triggerPictureInPicture`, as a trace of effects.  `probe` is the list
of per-frame injection results, `blockPip` the stored `block-pip`
preference, `frameElems` the element states the winning frame holds at
activation time, and `req` the outcome of the native PiP request.  With a
winner: update the icon, install the exit-guard in the winning frame when
the preference is set, then run the in-frame activation.  With no winner:
`throw` of a `No player is detected` error, caught by the surrounding
`catch` which warns, sets badge text `E` and sets the title to the
message of the error. -/
def triggerPictureInPicture (probe : List InjectionResult) (blockPip : Bool)
    (frameElems : Int → List Elem) (req : Elem → Except String Unit) : List Effect :=
  match pickWinner (probedCandidates probe) with
  | some v =>
    Effect.setIcon ::
      ((if blockPip then [Effect.installExitGuard v.frameId] else []) ++
        inFrameActivate (frameElems v.frameId) req)
  | none =>
    [Effect.warn "No player is detected", Effect.setBadgeText "E",
     Effect.setTitle "No player is detected"]

/-- A reference to a function stored in
`Document.prototype.exitPictureInPicture`: either some original value or a
proxy wrapped around a previous value (the `apply` trap of the proxy discards
the call). -/
inductive FuncRef where
  | native : FuncRef
  | proxy : FuncRef → FuncRef
deriving DecidableEq, Repr

/-- The frame-global `self.pipobj` record: the pointer captured at its
creation and the id of the currently scheduled restore timer. -/
structure PipObj where
  pointer : FuncRef
  timerId : Option Nat
deriving DecidableEq, Repr

/-- A scheduled restore timer: its `setTimeout` id and absolute fire
time. -/
structure Timer where
  id : Nat
  fireAt : Nat
deriving DecidableEq, Repr

/-- State of the execution context of one frame as far as the exit-guard is
concerned: the current `Document.prototype.exitPictureInPicture`
reference, the `self.pipobj` record if created, the pending timers, a
fresh-timer-id counter, and a count of restore events that have fired. -/
structure GuardState where
  exitPiP : FuncRef
  pipobj : Option PipObj
  timers : List Timer
  nextId : Nat
  restorations : Nat
deriving DecidableEq, Repr

/-- The exit-guard installer script, run at time `now`:

`self.pipobj = self.pipobj || { pointer: Document.prototype.exitPictureInPicture };`
(capture the current reference only on first creation);
`clearTimeout(self.pipobj.id);`
`self.pipobj.id = setTimeout(restore, 2000);`
`Document.prototype.exitPictureInPicture = new Proxy(current, { apply() { ... } });`. -/
def GuardState.install (now : Nat) (s : GuardState) : GuardState :=
  let po := s.pipobj.getD { pointer := s.exitPiP, timerId := none }
  let cleared := match po.timerId with
    | some i => s.timers.filter (fun t => decide (t.id ≠ i))
    | none => s.timers
  { exitPiP := FuncRef.proxy s.exitPiP
    pipobj := some { pointer := po.pointer, timerId := some s.nextId }
    timers := cleared ++ [{ id := s.nextId, fireAt := now + 2000 }]
    nextId := s.nextId + 1
    restorations := s.restorations }

/-- Let time advance to `now`: every pending timer due by `now` fires its
callback `Document.prototype.exitPictureInPicture = self.pipobj.pointer`
and is removed.  Every timer is created by `GuardState.install`, which
also creates `pipobj`, so the `getD` fallback for an absent `pipobj` is
unreachable from any state this development uses. -/
def GuardState.elapse (now : Nat) (s : GuardState) : GuardState :=
  let due := s.timers.filter (fun t => decide (t.fireAt ≤ now))
  { s with
    exitPiP := if due.isEmpty then s.exitPiP else (s.pipobj.map PipObj.pointer).getD s.exitPiP
    timers := s.timers.filter (fun t => decide (¬ t.fireAt ≤ now))
    restorations := s.restorations + due.length }

/-- One full activation cycle for a frame: install the guard at time `t`,
then let the whole grace window pass. -/
def GuardState.cycle (s : GuardState) (t : Nat) : GuardState :=
  GuardState.elapse (t + 2000) (GuardState.install t s)

/-- The guard-free initial state of a frame whose
`Document.prototype.exitPictureInPicture` is `p`. -/
def freshFrame (p : FuncRef) : GuardState :=
  { exitPiP := p, pipobj := none, timers := [], nextId := 0, restorations := 0 }

/-- Observable effects of the `triggerPip` branch of the content script. -/
inductive CEffect where
  | seek : Int → CEffect
  | play : CEffect
  | requestPiP : CEffect
deriving DecidableEq, Repr

/-- The `triggerPip` message branch of the content script.  The whole body is
guarded by `if (request.timestamp)`: an absent timestamp (`none`) or the
number `0` is falsy, so nothing at all happens.  Otherwise, after the
settle delays, the first video (when present) is sought to the timestamp
and played, and the PiP request is attempted when
`document.pictureInPictureEnabled` holds. -/
def triggerPipHandler (timestamp : Option Int) (videoFound pipEnabled : Bool) : List CEffect :=
  match timestamp with
  | none => []
  | some ts =>
    if ts ≠ 0 then
      if videoFound then
        [CEffect.seek ts, CEffect.play] ++ (if pipEnabled then [CEffect.requestPiP] else [])
      else []
    else []

/-! ## Order-theoretic facts about the global comparator -/

instance : IsAntisymm Candidate rankLE := ⟨by
  rintro ⟨ap, ac, af⟩ ⟨bp, bc, bf⟩ h1 h2
  simp only [rankLE, sorting] at h1 h2
  cases ap <;> cases bp <;> cases ac <;> cases bc <;> simp_all <;> omega⟩

instance : IsTotal Candidate rankLE := ⟨by
  rintro ⟨ap, ac, af⟩ ⟨bp, bc, bf⟩
  simp only [rankLE, sorting]
  cases ap <;> cases bp <;> cases ac <;> cases bc <;> simp_all <;> omega⟩

instance : IsTrans Candidate rankLE := ⟨by
  rintro ⟨ap, ac, af⟩ ⟨bp, bc, bf⟩ ⟨cp, cc, cf⟩ h1 h2
  simp only [rankLE, sorting] at h1 h2 ⊢
  cases ap <;> cases bp <;> cases cp <;> cases ac <;> cases bc <;> cases cc <;>
    simp_all <;> omega⟩

/-! ## Invariant of the exit-guard state machine -/

/-- Quiescent-state invariant for a frame whose original exit-PiP
reference is `p`: the live reference equals `p`, no timer is pending, and
a `pipobj` record, if it exists, still holds `p` as the captured
pointer. -/
def GuardInv (p : FuncRef) (s : GuardState) : Prop :=
  s.exitPiP = p ∧ s.timers = [] ∧ ∀ o, s.pipobj = some o → o.pointer = p

theorem guardInv_cycle {p : FuncRef} {s : GuardState} (h : GuardInv p s) (t : Nat) :
    GuardInv p (s.cycle t) := by
  obtain ⟨h1, h2, h3⟩ := h
  cases hp : s.pipobj with
  | none =>
    refine ⟨?_, ?_, ?_⟩ <;>
      simp [GuardState.cycle, GuardState.install, GuardState.elapse, hp, h1, h2]
  | some o =>
    have hop : o.pointer = p := h3 o hp
    cases hti : o.timerId with
    | none =>
      refine ⟨?_, ?_, ?_⟩ <;>
        simp [GuardState.cycle, GuardState.install, GuardState.elapse, hp, h1, h2, hop, hti]
    | some i =>
      refine ⟨?_, ?_, ?_⟩ <;>
        simp [GuardState.cycle, GuardState.install, GuardState.elapse, hp, h1, h2, hop, hti]

theorem guardInv_foldl {p : FuncRef} (ts : List Nat) {s : GuardState} (h : GuardInv p s) :
    GuardInv p (ts.foldl GuardState.cycle s) := by
  induction ts generalizing s with
  | nil => exact h
  | cons t ts ih => exact ih (guardInv_cycle h t)

/-! ## The claims -/

/-- C1: the claim says that among two candidates with equal paused status
the comparator ranks the connected one ahead of the disconnected one.
The comparator does the opposite: its third branch returns `-1` exactly
when the FIRST argument is disconnected and the second connected, so the
disconnected candidate sorts first.  Evaluated here on a playing pair and
on a paused pair. -/
theorem connected_candidate_ranked_after_disconnected :
    sorting ⟨false, true, 0⟩ ⟨false, false, 1⟩ = 1 ∧
    sorting ⟨false, false, 1⟩ ⟨false, true, 0⟩ = -1 ∧
    sorting ⟨true, true, 0⟩ ⟨true, false, 1⟩ = 1 ∧
    sorting ⟨true, false, 1⟩ ⟨true, true, 0⟩ = -1 := by decide

/-- C2: the claim (and the spec scenario) says the winner of
`[{paused:true,connected:true,frameId:0}, {paused:false,connected:true,frameId:2},
{paused:false,connected:false,frameId:1}]` is the candidate with frame id 2.
Rank-and-select as coded returns the playing but DISCONNECTED candidate
with frame id 1, because the connected tiebreak of the comparator is
inverted. -/
theorem scenario_winner_is_disconnected_frame :
    pickWinner [⟨true, true, 0⟩, ⟨false, true, 2⟩, ⟨false, false, 1⟩] =
      some ⟨false, false, 1⟩ := by decide

/-- C3, counterexample to the claim as stated: a concrete run in which the
native PiP request rejects with message `boom`.  The trace ends in an
`alert` carrying the message; no badge text and no title carrying the
message is ever set. -/
theorem rejection_not_surfaced_via_badge_or_title :
    (triggerPictureInPicture [⟨0, [⟨false, true⟩]⟩] true (fun _ => [⟨false, true⟩])
        (fun _ => Except.error "boom") =
      [Effect.setIcon, Effect.installExitGuard 0, Effect.requestPiP, Effect.alert "boom"]) ∧
    Effect.setTitle "boom" ∉ triggerPictureInPicture [⟨0, [⟨false, true⟩]⟩] true
        (fun _ => [⟨false, true⟩]) (fun _ => Except.error "boom") ∧
    Effect.setBadgeText "E" ∉ triggerPictureInPicture [⟨0, [⟨false, true⟩]⟩] true
        (fun _ => [⟨false, true⟩]) (fun _ => Except.error "boom") := by decide

/-- C3, amended: whenever the native request-PiP operation in the winning
frame rejects, the rejection is caught at the point of the call and
surfaced to the user via an alert dialog carrying the message text of the
native rejection; it is never left as an unhandled failure. -/
theorem rejection_caught_and_alerted (es : List Elem) (req : Elem → Except String Unit)
    (e : Elem) (m : String)
    (h₁ : (List.insertionSort inFrameLE es).head? = some e)
    (h₂ : req e = Except.error m) :
    inFrameActivate es req = [Effect.requestPiP, Effect.alert m] := by
  simp [inFrameActivate, h₁, h₂]

theorem rejection_caught_and_alerted_witness :
    ((List.insertionSort inFrameLE [⟨false, true⟩]).head? = some ⟨false, true⟩ ∧
      (fun _ : Elem => (Except.error "x" : Except String Unit)) ⟨false, true⟩ =
        Except.error "x") ∧
    inFrameActivate [⟨false, true⟩] (fun _ => Except.error "x") =
      [Effect.requestPiP, Effect.alert "x"] :=
  ⟨⟨by decide, rfl⟩,
    rejection_caught_and_alerted [⟨false, true⟩] (fun _ => Except.error "x")
      ⟨false, true⟩ "x" (by decide) rfl⟩

/-- C4, counterexample to the claim as stated: two candidates of the same
frame, both playing, one attached and one detached.  The global comparator
distinguishes them (`1`: the connected one sorts after), while the
in-frame comparator ties (`0`): its connected guards read the nonexistent
`connected` property of the raw elements, which is `undefined`, so they
never fire — the two comparators are not extensionally identical on the
candidates of a single frame. -/
theorem in_frame_connected_guards_dead :
    (⟨false, true, 0⟩ : Candidate).frameId = (⟨false, false, 0⟩ : Candidate).frameId ∧
    sorting ⟨false, true, 0⟩ ⟨false, false, 0⟩ = 1 ∧
    sortingInFrameValue (Candidate.toElem ⟨false, true, 0⟩)
      (Candidate.toElem ⟨false, false, 0⟩) = 0 := by decide

/-- C4, amended: restricted to the candidates of a single frame, the
in-frame comparator agrees with the global comparator on every pair except
those with equal paused status and differing connected status; on those it
returns a tie (`0`, both of its connected guards being dead reads of an
`undefined` property) where the global comparator returns `1` or `-1`. -/
theorem in_frame_comparator_agreement (a b : Candidate) (h : a.frameId = b.frameId) :
    sortingInFrameValue a.toElem b.toElem =
      if a.paused = b.paused ∧ ¬ a.connected = b.connected then 0 else sorting a b := by
  obtain ⟨ap, ac, af⟩ := a
  obtain ⟨bp, bc, bf⟩ := b
  simp only at h
  subst h
  cases ap <;> cases bp <;> cases ac <;> cases bc <;>
    simp [sortingInFrameValue, sortingInFrame, sorting, Candidate.toElem,
      Elem.connectedProp, jsStrictEqFalse, jsTruthy]

theorem in_frame_comparator_agreement_witness :
    (⟨false, true, 5⟩ : Candidate).frameId = (⟨true, false, 5⟩ : Candidate).frameId ∧
    sortingInFrameValue (Candidate.toElem ⟨false, true, 5⟩)
        (Candidate.toElem ⟨true, false, 5⟩) =
      if (⟨false, true, 5⟩ : Candidate).paused = (⟨true, false, 5⟩ : Candidate).paused ∧
          ¬ (⟨false, true, 5⟩ : Candidate).connected = (⟨true, false, 5⟩ : Candidate).connected
        then 0 else sorting ⟨false, true, 5⟩ ⟨true, false, 5⟩ :=
  ⟨rfl, in_frame_comparator_agreement ⟨false, true, 5⟩ ⟨true, false, 5⟩ rfl⟩

/-- C5: installing the exit-guard a second time at `t₂`, before the
2000 ms window opened at `t₁` has expired, leaves exactly one pending
timer, scheduled at `t₂ + 2000`: the timer of the first installation has
been cancelled (`clearTimeout`), no restoration has fired yet, none fires
before `t₂ + 2000`, and exactly one restoration has fired at any time from
`t₂ + 2000` on. -/
theorem exit_guard_debounce (p : FuncRef) (t₁ t₂ tEarly tLate : Nat)
    (h₁ : t₁ ≤ t₂) (h₂ : t₂ < t₁ + 2000) (h₃ : tEarly < t₂ + 2000)
    (h₄ : t₂ + 2000 ≤ tLate) :
    ((freshFrame p).install t₁ |>.elapse t₂ |>.install t₂).timers
        = [{ id := 1, fireAt := t₂ + 2000 }] ∧
    ((freshFrame p).install t₁ |>.elapse t₂ |>.install t₂).restorations = 0 ∧
    (((freshFrame p).install t₁ |>.elapse t₂ |>.install t₂).elapse tEarly).restorations = 0 ∧
    (((freshFrame p).install t₁ |>.elapse t₂ |>.install t₂).elapse tLate).restorations = 1 := by
  have hA : decide (t₁ + 2000 ≤ t₂) = false := decide_eq_false (by omega)
  have hB : decide (t₂ + 2000 ≤ tEarly) = false := decide_eq_false (by omega)
  have hC : decide (t₂ + 2000 ≤ tLate) = true := decide_eq_true h₄
  simp [freshFrame, GuardState.install, GuardState.elapse, hA, hB, hC]

theorem exit_guard_debounce_witness :
    ((0 : Nat) ≤ 1000 ∧ 1000 < 0 + 2000 ∧ 2500 < 1000 + 2000 ∧ 1000 + 2000 ≤ 3000) ∧
    (((freshFrame FuncRef.native).install 0 |>.elapse 1000 |>.install 1000).timers
        = [{ id := 1, fireAt := 1000 + 2000 }] ∧
      ((freshFrame FuncRef.native).install 0 |>.elapse 1000 |>.install 1000).restorations = 0 ∧
      (((freshFrame FuncRef.native).install 0 |>.elapse 1000
          |>.install 1000).elapse 2500).restorations = 0 ∧
      (((freshFrame FuncRef.native).install 0 |>.elapse 1000
          |>.install 1000).elapse 3000).restorations = 1) :=
  ⟨by decide,
    exit_guard_debounce FuncRef.native 0 1000 2500 3000
      (by decide) (by decide) (by decide) (by decide)⟩

/-- C6: for any original exit-PiP reference `p` and any sequence of
activation cycles (install at `t`, then let the grace window pass), the
frame ends with `Document.prototype.exitPictureInPicture` equal to the
exact original reference `p` — not a proxy around it — and with no pending
timer.  The captured pointer is taken on the first installation only
(`self.pipobj = self.pipobj || ...`), so repeated wrap-then-expire cycles
are observationally a no-op. -/
theorem exit_guard_round_trip (p : FuncRef) (ts : List Nat) :
    (ts.foldl GuardState.cycle (freshFrame p)).exitPiP = p ∧
    (ts.foldl GuardState.cycle (freshFrame p)).timers = [] := by
  have h : GuardInv p (freshFrame p) :=
    ⟨rfl, rfl, by intro o ho; simp [freshFrame] at ho⟩
  exact ⟨(guardInv_foldl ts h).1, (guardInv_foldl ts h).2.1⟩

/-- C7: when no frame contributed any candidate, rank-and-select yields no
winner and the run produces exactly the error trace: a console warning,
badge text `E` and hover title `No player is detected` — in particular no
icon update, no guard installation and no activation attempt. -/
theorem empty_probe_yields_error_state (probe : List InjectionResult) (blockPip : Bool)
    (frameElems : Int → List Elem) (req : Elem → Except String Unit)
    (h : probedCandidates probe = []) :
    pickWinner (probedCandidates probe) = none ∧
    triggerPictureInPicture probe blockPip frameElems req =
      [Effect.warn "No player is detected", Effect.setBadgeText "E",
       Effect.setTitle "No player is detected"] := by
  have hw : pickWinner (probedCandidates probe) = none := by
    simp [pickWinner, h, List.insertionSort]
  exact ⟨hw, by simp [triggerPictureInPicture, hw]⟩

theorem empty_probe_yields_error_state_witness :
    probedCandidates [] = [] ∧
    (pickWinner (probedCandidates []) = none ∧
      triggerPictureInPicture [] true (fun _ => []) (fun _ => Except.ok ()) =
        [Effect.warn "No player is detected", Effect.setBadgeText "E",
         Effect.setTitle "No player is detected"]) :=
  ⟨rfl, empty_probe_yields_error_state [] true (fun _ => []) (fun _ => Except.ok ()) rfl⟩

/-- C8: a playing, connected candidate outranks every paused candidate, no
matter the connectivity and frame id of the paused one: the first branch
of the comparator fires and returns `-1` (and `1` with the arguments
swapped). -/
theorem playing_connected_beats_paused (a b : Candidate)
    (h₁ : a.paused = false) (h₂ : a.connected = true) (h₃ : b.paused = true) :
    sorting a b = -1 ∧ sorting b a = 1 := by
  constructor <;> simp [sorting, h₁, h₂, h₃]

theorem playing_connected_beats_paused_witness :
    ((⟨false, true, 7⟩ : Candidate).paused = false ∧
      (⟨false, true, 7⟩ : Candidate).connected = true ∧
      (⟨true, false, 0⟩ : Candidate).paused = true) ∧
    (sorting ⟨false, true, 7⟩ ⟨true, false, 0⟩ = -1 ∧
      sorting ⟨true, false, 0⟩ ⟨false, true, 7⟩ = 1) :=
  ⟨⟨rfl, rfl, rfl⟩,
    playing_connected_beats_paused ⟨false, true, 7⟩ ⟨true, false, 0⟩ rfl rfl rfl⟩

/-- C9: the comparator induces a total, antisymmetric order, so rank-and-
select is deterministic: any two runs of a conforming sort — any two
rearrangements of the input that are sorted under the comparator — agree,
and their common head is exactly `pickWinner` of the input. -/
theorem rank_and_select_deterministic (l s₁ s₂ : List Candidate)
    (h₁ : s₁.Perm l) (h₂ : s₂.Perm l)
    (hs₁ : s₁.Sorted rankLE) (hs₂ : s₂.Sorted rankLE) :
    s₁.head? = s₂.head? ∧ pickWinner l = s₁.head? := by
  have e12 : s₁ = s₂ := List.eq_of_perm_of_sorted (h₁.trans h₂.symm) hs₁ hs₂
  have e1 : List.insertionSort rankLE l = s₁ :=
    List.eq_of_perm_of_sorted ((List.perm_insertionSort rankLE l).trans h₁.symm)
      (List.sorted_insertionSort rankLE l) hs₁
  exact ⟨by rw [e12], by rw [pickWinner, e1]⟩

theorem rank_and_select_deterministic_witness :
    (([⟨false, false, 1⟩, ⟨false, true, 2⟩] : List Candidate).Perm
        [⟨false, true, 2⟩, ⟨false, false, 1⟩] ∧
      ([⟨false, false, 1⟩, ⟨false, true, 2⟩] : List Candidate).Perm
        [⟨false, true, 2⟩, ⟨false, false, 1⟩] ∧
      ([⟨false, false, 1⟩, ⟨false, true, 2⟩] : List Candidate).Sorted rankLE) ∧
    (([⟨false, false, 1⟩, ⟨false, true, 2⟩] : List Candidate).head? =
        ([⟨false, false, 1⟩, ⟨false, true, 2⟩] : List Candidate).head? ∧
      pickWinner [⟨false, true, 2⟩, ⟨false, false, 1⟩] =
        ([⟨false, false, 1⟩, ⟨false, true, 2⟩] : List Candidate).head?) :=
  ⟨⟨by decide, by decide, by decide⟩,
    rank_and_select_deterministic [⟨false, true, 2⟩, ⟨false, false, 1⟩]
      [⟨false, false, 1⟩, ⟨false, true, 2⟩] [⟨false, false, 1⟩, ⟨false, true, 2⟩]
      (by decide) (by decide) (by decide) (by decide)⟩

/-- C10: a `triggerPip` message whose timestamp is absent or `0` is falsy
under the guarding `if (request.timestamp)`, so the handler performs no
action at all — no seek, no play, no PiP attempt — whatever the available
video and the PiP-enabled flag are. -/
theorem zero_or_absent_timestamp_no_action (timestamp : Option Int)
    (videoFound pipEnabled : Bool)
    (h : timestamp = none ∨ timestamp = some 0) :
    triggerPipHandler timestamp videoFound pipEnabled = [] := by
  rcases h with h | h <;> subst h <;> simp [triggerPipHandler]

theorem zero_or_absent_timestamp_no_action_witness :
    ((some 0 : Option Int) = none ∨ (some 0 : Option Int) = some 0) ∧
    triggerPipHandler (some 0) true true = [] :=
  ⟨Or.inr rfl, zero_or_absent_timestamp_no_action (some 0) true true (Or.inr rfl)⟩
